import Mathlib

/-!
The virtcontainers adapter: the plugin hypervisor adapter (`hypervisor_plugin.go`)

A shallow embedding of `pluginHypervisor` and its twelve methods.

* Go `error` values are modelled by their text: `Option String`, `none` being `nil`.
* A backend callable is a Go function with side effects: it is modelled as a function
  that threads a backend world `W` (everything the loaded module can observe or change).
  The adapter itself never reads or writes `W`; the world after a call therefore tells
  how often, and with which arguments, the callable has been applied.
* `interface{}` values (the Backend Instance, a device descriptor) are values of a type
  `Any`, which stands for all Go values, the nil interface included.
* A failed single-value type assertion `x.(T)` and a method call through a nil
  `*plugin.Plugin` are run-time panics: `Outcome.panic`.
-/

namespace Virtcontainers

/-! ## Formatting: `fmt.Errorf` with `%q`, `%s` and `%v` -/

/-- Digit table of `strconv`: `lowerhex = "0123456789abcdef"`. -/
def lowerhex (n : Nat) : Char :=
  "0123456789abcdef".data.getD (n % 16) '0'

/-- Hexadecimal digits of `v`, most significant first, `width` of them
(the loops `for s := 12; s >= 0; s -= 4` of `strconv.appendEscapedRune`). -/
def hexDigits (width v : Nat) : List Char :=
  ((List.range width).reverse).map (fun i => lowerhex (v / 16 ^ i))

/-- Printable code points as in `strconv.IsPrint`: decided here for the code points up to
U+00FF, and by the table `uni` (the Unicode tables of the Go release) above them. -/
def IsPrint (uni : Char → Bool) (r : Char) : Bool :=
  if r.toNat ≤ 0xFF then
    if 0x20 ≤ r.toNat ∧ r.toNat < 0x7F then true
    else if 0xA1 ≤ r.toNat then r.toNat != 0xAD
    else false
  else uni r

/-- One rune of a `%q` rendering: `strconv.appendEscapedRune` with the double quote as the
quote character (`ASCIIonly` and `graphicOnly` false), as in current Go releases (older
ones write U+007F as `\u007f`). A Lean `String` holds valid code points only; the bytes of
an ill-formed Go string are outside the model. -/
def appendEscapedRune (uni : Char → Bool) (r : Char) : List Char :=
  if r.toNat = 34 ∨ r.toNat = 92 then [Char.ofNat 92, r]
  else if IsPrint uni r then [r]
  else if r.toNat = 7 then [Char.ofNat 92, 'a']
  else if r.toNat = 8 then [Char.ofNat 92, 'b']
  else if r.toNat = 12 then [Char.ofNat 92, 'f']
  else if r.toNat = 10 then [Char.ofNat 92, 'n']
  else if r.toNat = 13 then [Char.ofNat 92, 'r']
  else if r.toNat = 9 then [Char.ofNat 92, 't']
  else if r.toNat = 11 then [Char.ofNat 92, 'v']
  else if r.toNat < 32 ∨ r.toNat = 0x7F then Char.ofNat 92 :: 'x' :: hexDigits 2 r.toNat
  else if r.toNat < 0x10000 then Char.ofNat 92 :: 'u' :: hexDigits 4 r.toNat
  else Char.ofNat 92 :: 'U' :: hexDigits 8 r.toNat

/-- The verb `%q` applied to a string: `strconv.Quote`. -/
def fmtQ (uni : Char → Bool) (s : String) : String :=
  String.mk (Char.ofNat 34 :: (s.data.flatMap (appendEscapedRune uni) ++ [Char.ofNat 34]))

/-! ## Constants -/

def initFuncName : String := "Init"
def createPodFuncName : String := "CreatePod"
def startPodFuncName : String := "StartPod"
def waitPodFuncName : String := "WaitPod"
def stopPodFuncName : String := "StopPod"
def pausePodFuncName : String := "PausePod"
def resumePodFuncName : String := "ResumePod"
def addDeviceFuncName : String := "AddDevice"
def hotplugAddDeviceFuncName : String := "HotplugAddDevice"
def hotplugRemoveDeviceFuncName : String := "HotplugRemoveDevice"
def getPodConsoleFuncName : String := "GetPodConsole"
def capabilitiesFuncName : String := "Capabilities"

/-! ## Data model -/

/-- The part of `*Pod` the adapter reads: `pod.config.HypervisorConfig.PluginPath`.
The type `Pod` is declared outside `hypervisor_plugin.go`; it is a parameter here, and a
value of it stands for a non-nil pod with a non-nil configuration. -/
class HasPluginPath (Pod : Type) where
  PluginPath : Pod → String

/-- The zero value `Capabilities{}` of the type `Capabilities`, which is declared outside
`hypervisor_plugin.go`. -/
class HasZero (Capabilities : Type) where
  zeroValue : Capabilities

/-- A `plugin.Symbol`: a value together with its dynamic type. There is one constructor for
each function type the adapter asserts, and `other` for a value of any other dynamic type
(a function of another arity or with other argument or result types, a variable, the nil
interface). A callable takes the backend world and returns its results with the new
world. -/
inductive Symbol (W Any Pod PodConfig DeviceType Capabilities : Type) where
  /-- Type `func(*Pod) (interface{}, error)` -/
  | initFn (f : Pod → W → (Any × Option String) × W)
  /-- Type `func(interface{}, PodConfig) error` -/
  | podConfigFn (f : Any → PodConfig → W → Option String × W)
  /-- Type `func(interface{}) error` -/
  | podFn (f : Any → W → Option String × W)
  /-- Type `func(interface{}, int) error` -/
  | waitFn (f : Any → Int → W → Option String × W)
  /-- Type `func(interface{}, interface{}, DeviceType) error` -/
  | deviceFn (f : Any → Any → DeviceType → W → Option String × W)
  /-- Type `func(interface{}, string) string` -/
  | consoleFn (f : Any → String → W → String × W)
  /-- Type `func(interface{}) Capabilities` -/
  | capabilitiesFn (f : Any → W → Capabilities × W)
  /-- any other dynamic type; `tag` tells such values apart -/
  | other (tag : Nat)

/-- A loaded module, `plugin.Plugin`, seen through its method `Lookup`, which returns
either the symbol exported under a name or an error (given by its text). -/
structure Plugin (W Any Pod PodConfig DeviceType Capabilities : Type) where
  pluginpath : String
  Lookup : String → Except String (Symbol W Any Pod PodConfig DeviceType Capabilities)

/-- The adapter: `type pluginHypervisor struct { handler *plugin.Plugin; hypervisor interface{} }`.
A nil `handler` is `none`. -/
structure pluginHypervisor (W Any Pod PodConfig DeviceType Capabilities : Type) where
  handler : Option (Plugin W Any Pod PodConfig DeviceType Capabilities)
  hypervisor : Any

/-- How a method call ends: it returns `r`, or it panics; `s` is the state (adapter and
backend world) at that point. -/
inductive Outcome (R S : Type) where
  | ret (r : R) (s : S)
  | panic (s : S)

/-- The Go runtime around the adapter: the loader `plugin.Open`, which returns a handle
and an error as Go does (the two results are independent in the type), and the Unicode
table consulted by `%q`. -/
structure Runtime (W Any Pod PodConfig DeviceType Capabilities : Type) where
  Open : String → Option (Plugin W Any Pod PodConfig DeviceType Capabilities) × Option String
  uni : Char → Bool

/-! ## The methods of `pluginHypervisor` -/

section Methods

variable {W Any Pod PodConfig DeviceType Capabilities : Type}

/-- Format `fmt.Errorf("Failed to open plugin path %q: %v", pluginPath, err)` -/
def openError (uni : Char → Bool) (pluginPath cause : String) : String :=
  "Failed to open plugin path " ++ fmtQ uni pluginPath ++ ": " ++ cause

/-- Format `fmt.Errorf("Failed to lookup function %q: %v", name, err)` -/
def lookupError (uni : Char → Bool) (name cause : String) : String :=
  "Failed to lookup function " ++ fmtQ uni name ++ ": " ++ cause

/-- Format `fmt.Errorf("%s() failed: %v", name, err)` -/
def failedError (name cause : String) : String :=
  name ++ "() failed: " ++ cause

/-- The tail shared by the methods that return `error`: a nil error of the callable is
returned as nil, a non-nil one wrapped with the name of the operation. -/
def wrapResult (name : String) (e : Option String) : Option String :=
  match e with
  | some cause => some (failedError name cause)
  | none => none

/-- Method `func (h *pluginHypervisor) init(pod *Pod) (err error)` -/
def init [HasPluginPath Pod] (rt : Runtime W Any Pod PodConfig DeviceType Capabilities)
    (h : pluginHypervisor W Any Pod PodConfig DeviceType Capabilities) (pod : Pod) (w : W) :
    Outcome (Option String) (pluginHypervisor W Any Pod PodConfig DeviceType Capabilities × W) :=
  let pluginPath := HasPluginPath.PluginPath pod
  let h1 : pluginHypervisor W Any Pod PodConfig DeviceType Capabilities :=
    { handler := (rt.Open pluginPath).1, hypervisor := h.hypervisor }
  match (rt.Open pluginPath).2 with
  | some err => .ret (some (openError rt.uni pluginPath err)) (h1, w)
  | none =>
    match h1.handler with
    | none => .panic (h1, w)
    | some p =>
      match p.Lookup initFuncName with
      | .error err => .ret (some (lookupError rt.uni initFuncName err)) (h1, w)
      | .ok (.initFn initFunc) =>
        let h2 : pluginHypervisor W Any Pod PodConfig DeviceType Capabilities :=
          { handler := h1.handler, hypervisor := (initFunc pod w).1.1 }
        match (initFunc pod w).1.2 with
        | some err => .ret (some (failedError initFuncName err)) (h2, (initFunc pod w).2)
        | none => .ret none (h2, (initFunc pod w).2)
      | .ok _ => .panic (h1, w)

/-- Method `func (h *pluginHypervisor) createPod(podConfig PodConfig) error` -/
def createPod (rt : Runtime W Any Pod PodConfig DeviceType Capabilities)
    (h : pluginHypervisor W Any Pod PodConfig DeviceType Capabilities) (podConfig : PodConfig)
    (w : W) :
    Outcome (Option String) (pluginHypervisor W Any Pod PodConfig DeviceType Capabilities × W) :=
  match h.handler with
  | none => .panic (h, w)
  | some p =>
    match p.Lookup createPodFuncName with
    | .error err => .ret (some (lookupError rt.uni createPodFuncName err)) (h, w)
    | .ok (.podConfigFn createPodFunc) =>
      match (createPodFunc h.hypervisor podConfig w).1 with
      | some err =>
        .ret (some (failedError createPodFuncName err))
          (h, (createPodFunc h.hypervisor podConfig w).2)
      | none => .ret none (h, (createPodFunc h.hypervisor podConfig w).2)
    | .ok _ => .panic (h, w)

/-- Method `func (h *pluginHypervisor) startPod() error` -/
def startPod (rt : Runtime W Any Pod PodConfig DeviceType Capabilities)
    (h : pluginHypervisor W Any Pod PodConfig DeviceType Capabilities) (w : W) :
    Outcome (Option String) (pluginHypervisor W Any Pod PodConfig DeviceType Capabilities × W) :=
  match h.handler with
  | none => .panic (h, w)
  | some p =>
    match p.Lookup startPodFuncName with
    | .error err => .ret (some (lookupError rt.uni startPodFuncName err)) (h, w)
    | .ok (.podFn startPodFunc) =>
      match (startPodFunc h.hypervisor w).1 with
      | some err =>
        .ret (some (failedError startPodFuncName err)) (h, (startPodFunc h.hypervisor w).2)
      | none => .ret none (h, (startPodFunc h.hypervisor w).2)
    | .ok _ => .panic (h, w)

/-- Method `func (h *pluginHypervisor) waitPod(timeout int) error` -/
def waitPod (rt : Runtime W Any Pod PodConfig DeviceType Capabilities)
    (h : pluginHypervisor W Any Pod PodConfig DeviceType Capabilities) (timeout : Int) (w : W) :
    Outcome (Option String) (pluginHypervisor W Any Pod PodConfig DeviceType Capabilities × W) :=
  match h.handler with
  | none => .panic (h, w)
  | some p =>
    match p.Lookup waitPodFuncName with
    | .error err => .ret (some (lookupError rt.uni waitPodFuncName err)) (h, w)
    | .ok (.waitFn waitPodFunc) =>
      match (waitPodFunc h.hypervisor timeout w).1 with
      | some err =>
        .ret (some (failedError waitPodFuncName err))
          (h, (waitPodFunc h.hypervisor timeout w).2)
      | none => .ret none (h, (waitPodFunc h.hypervisor timeout w).2)
    | .ok _ => .panic (h, w)

/-- Method `func (h *pluginHypervisor) stopPod() error` -/
def stopPod (rt : Runtime W Any Pod PodConfig DeviceType Capabilities)
    (h : pluginHypervisor W Any Pod PodConfig DeviceType Capabilities) (w : W) :
    Outcome (Option String) (pluginHypervisor W Any Pod PodConfig DeviceType Capabilities × W) :=
  match h.handler with
  | none => .panic (h, w)
  | some p =>
    match p.Lookup stopPodFuncName with
    | .error err => .ret (some (lookupError rt.uni stopPodFuncName err)) (h, w)
    | .ok (.podFn stopPodFunc) =>
      match (stopPodFunc h.hypervisor w).1 with
      | some err =>
        .ret (some (failedError stopPodFuncName err)) (h, (stopPodFunc h.hypervisor w).2)
      | none => .ret none (h, (stopPodFunc h.hypervisor w).2)
    | .ok _ => .panic (h, w)

/-- Method `func (h *pluginHypervisor) pausePod() error` -/
def pausePod (rt : Runtime W Any Pod PodConfig DeviceType Capabilities)
    (h : pluginHypervisor W Any Pod PodConfig DeviceType Capabilities) (w : W) :
    Outcome (Option String) (pluginHypervisor W Any Pod PodConfig DeviceType Capabilities × W) :=
  match h.handler with
  | none => .panic (h, w)
  | some p =>
    match p.Lookup pausePodFuncName with
    | .error err => .ret (some (lookupError rt.uni pausePodFuncName err)) (h, w)
    | .ok (.podFn pausePodFunc) =>
      match (pausePodFunc h.hypervisor w).1 with
      | some err =>
        .ret (some (failedError pausePodFuncName err)) (h, (pausePodFunc h.hypervisor w).2)
      | none => .ret none (h, (pausePodFunc h.hypervisor w).2)
    | .ok _ => .panic (h, w)

/-- Method `func (h *pluginHypervisor) resumePod() error` -/
def resumePod (rt : Runtime W Any Pod PodConfig DeviceType Capabilities)
    (h : pluginHypervisor W Any Pod PodConfig DeviceType Capabilities) (w : W) :
    Outcome (Option String) (pluginHypervisor W Any Pod PodConfig DeviceType Capabilities × W) :=
  match h.handler with
  | none => .panic (h, w)
  | some p =>
    match p.Lookup resumePodFuncName with
    | .error err => .ret (some (lookupError rt.uni resumePodFuncName err)) (h, w)
    | .ok (.podFn resumePodFunc) =>
      match (resumePodFunc h.hypervisor w).1 with
      | some err =>
        .ret (some (failedError resumePodFuncName err)) (h, (resumePodFunc h.hypervisor w).2)
      | none => .ret none (h, (resumePodFunc h.hypervisor w).2)
    | .ok _ => .panic (h, w)

/-- Method `func (h *pluginHypervisor) addDevice(devInfo interface{}, devType DeviceType) error` -/
def addDevice (rt : Runtime W Any Pod PodConfig DeviceType Capabilities)
    (h : pluginHypervisor W Any Pod PodConfig DeviceType Capabilities) (devInfo : Any)
    (devType : DeviceType) (w : W) :
    Outcome (Option String) (pluginHypervisor W Any Pod PodConfig DeviceType Capabilities × W) :=
  match h.handler with
  | none => .panic (h, w)
  | some p =>
    match p.Lookup addDeviceFuncName with
    | .error err => .ret (some (lookupError rt.uni addDeviceFuncName err)) (h, w)
    | .ok (.deviceFn addDeviceFunc) =>
      match (addDeviceFunc h.hypervisor devInfo devType w).1 with
      | some err =>
        .ret (some (failedError addDeviceFuncName err))
          (h, (addDeviceFunc h.hypervisor devInfo devType w).2)
      | none => .ret none (h, (addDeviceFunc h.hypervisor devInfo devType w).2)
    | .ok _ => .panic (h, w)

/-- Method `func (h *pluginHypervisor) hotplugAddDevice(devInfo interface{}, devType DeviceType) error` -/
def hotplugAddDevice (rt : Runtime W Any Pod PodConfig DeviceType Capabilities)
    (h : pluginHypervisor W Any Pod PodConfig DeviceType Capabilities) (devInfo : Any)
    (devType : DeviceType) (w : W) :
    Outcome (Option String) (pluginHypervisor W Any Pod PodConfig DeviceType Capabilities × W) :=
  match h.handler with
  | none => .panic (h, w)
  | some p =>
    match p.Lookup hotplugAddDeviceFuncName with
    | .error err => .ret (some (lookupError rt.uni hotplugAddDeviceFuncName err)) (h, w)
    | .ok (.deviceFn hotplugAddDeviceFunc) =>
      match (hotplugAddDeviceFunc h.hypervisor devInfo devType w).1 with
      | some err =>
        .ret (some (failedError hotplugAddDeviceFuncName err))
          (h, (hotplugAddDeviceFunc h.hypervisor devInfo devType w).2)
      | none => .ret none (h, (hotplugAddDeviceFunc h.hypervisor devInfo devType w).2)
    | .ok _ => .panic (h, w)

/-- Method `func (h *pluginHypervisor) hotplugRemoveDevice(devInfo interface{}, devType DeviceType) error` -/
def hotplugRemoveDevice (rt : Runtime W Any Pod PodConfig DeviceType Capabilities)
    (h : pluginHypervisor W Any Pod PodConfig DeviceType Capabilities) (devInfo : Any)
    (devType : DeviceType) (w : W) :
    Outcome (Option String) (pluginHypervisor W Any Pod PodConfig DeviceType Capabilities × W) :=
  match h.handler with
  | none => .panic (h, w)
  | some p =>
    match p.Lookup hotplugRemoveDeviceFuncName with
    | .error err => .ret (some (lookupError rt.uni hotplugRemoveDeviceFuncName err)) (h, w)
    | .ok (.deviceFn hotplugRemoveDeviceFunc) =>
      match (hotplugRemoveDeviceFunc h.hypervisor devInfo devType w).1 with
      | some err =>
        .ret (some (failedError hotplugRemoveDeviceFuncName err))
          (h, (hotplugRemoveDeviceFunc h.hypervisor devInfo devType w).2)
      | none => .ret none (h, (hotplugRemoveDeviceFunc h.hypervisor devInfo devType w).2)
    | .ok _ => .panic (h, w)

/-- Method `func (h *pluginHypervisor) getPodConsole(podID string) string` -/
def getPodConsole (h : pluginHypervisor W Any Pod PodConfig DeviceType Capabilities)
    (podID : String) (w : W) :
    Outcome String (pluginHypervisor W Any Pod PodConfig DeviceType Capabilities × W) :=
  match h.handler with
  | none => .panic (h, w)
  | some p =>
    match p.Lookup getPodConsoleFuncName with
    | .error _ => .ret "" (h, w)
    | .ok (.consoleFn getPodConsoleFunc) =>
      .ret (getPodConsoleFunc h.hypervisor podID w).1
        (h, (getPodConsoleFunc h.hypervisor podID w).2)
    | .ok _ => .panic (h, w)

/-- Method `func (h *pluginHypervisor) capabilities() Capabilities` -/
def capabilities [HasZero Capabilities]
    (h : pluginHypervisor W Any Pod PodConfig DeviceType Capabilities) (w : W) :
    Outcome Capabilities (pluginHypervisor W Any Pod PodConfig DeviceType Capabilities × W) :=
  match h.handler with
  | none => .panic (h, w)
  | some p =>
    match p.Lookup capabilitiesFuncName with
    | .error _ => .ret HasZero.zeroValue (h, w)
    | .ok (.capabilitiesFn capabilitiesFunc) =>
      .ret (capabilitiesFunc h.hypervisor w).1 (h, (capabilitiesFunc h.hypervisor w).2)
    | .ok _ => .panic (h, w)

end Methods

/-! ## Calls as data: one request per method -/

section Requests

variable {W Any Pod PodConfig DeviceType Capabilities : Type}

/-- A method call on the adapter together with the caller's arguments. -/
inductive Request (Any Pod PodConfig DeviceType : Type) where
  | init (pod : Pod)
  | createPod (podConfig : PodConfig)
  | startPod
  | waitPod (timeout : Int)
  | stopPod
  | pausePod
  | resumePod
  | addDevice (devInfo : Any) (devType : DeviceType)
  | hotplugAddDevice (devInfo : Any) (devType : DeviceType)
  | hotplugRemoveDevice (devInfo : Any) (devType : DeviceType)
  | getPodConsole (podID : String)
  | capabilities

/-- What a method hands back: an `error`, a console string or a `Capabilities` value. -/
inductive Reply (Capabilities : Type) where
  | error (e : Option String)
  | console (s : String)
  | caps (c : Capabilities)

/-- The name a method passes to `Lookup`. -/
def Request.funcName : Request Any Pod PodConfig DeviceType → String
  | .init _ => initFuncName
  | .createPod _ => createPodFuncName
  | .startPod => startPodFuncName
  | .waitPod _ => waitPodFuncName
  | .stopPod => stopPodFuncName
  | .pausePod => pausePodFuncName
  | .resumePod => resumePodFuncName
  | .addDevice _ _ => addDeviceFuncName
  | .hotplugAddDevice _ _ => hotplugAddDeviceFuncName
  | .hotplugRemoveDevice _ _ => hotplugRemoveDeviceFuncName
  | .getPodConsole _ => getPodConsoleFuncName
  | .capabilities => capabilitiesFuncName

/-- The methods whose Go result type is `error`: all but `getPodConsole` and
`capabilities`. -/
def Request.returnsError : Request Any Pod PodConfig DeviceType → Bool
  | .getPodConsole _ => false
  | .capabilities => false
  | _ => true

/-- The six lifecycle methods that follow `init`. -/
def Request.isLifecycle : Request Any Pod PodConfig DeviceType → Bool
  | .createPod _ => true
  | .startPod => true
  | .waitPod _ => true
  | .stopPod => true
  | .pausePod => true
  | .resumePod => true
  | _ => false

/-- Whether the request is a call of `init`. -/
def Request.isInit : Request Any Pod PodConfig DeviceType → Bool
  | .init _ => true
  | _ => false

/-- Whether a symbol has the dynamic type that the method's type assertion names. -/
def Request.expects : Request Any Pod PodConfig DeviceType →
    Symbol W Any Pod PodConfig DeviceType Capabilities → Bool
  | .init _, .initFn _ => true
  | .createPod _, .podConfigFn _ => true
  | .startPod, .podFn _ => true
  | .waitPod _, .waitFn _ => true
  | .stopPod, .podFn _ => true
  | .pausePod, .podFn _ => true
  | .resumePod, .podFn _ => true
  | .addDevice _ _, .deviceFn _ => true
  | .hotplugAddDevice _ _, .deviceFn _ => true
  | .hotplugRemoveDevice _ _, .deviceFn _ => true
  | .getPodConsole _, .consoleFn _ => true
  | .capabilities, .capabilitiesFn _ => true
  | _, _ => false

/-- Change the returned value of an outcome, keeping the state. -/
def Outcome.mapRet {R R' S : Type} (f : R → R') : Outcome R S → Outcome R' S
  | .ret r s => .ret (f r) s
  | .panic s => .panic s

/-- The state in which a call ended. -/
def Outcome.state {R S : Type} : Outcome R S → S
  | .ret _ s => s
  | .panic s => s

/-- Perform one method call. -/
def call [HasPluginPath Pod] [HasZero Capabilities]
    (rt : Runtime W Any Pod PodConfig DeviceType Capabilities)
    (h : pluginHypervisor W Any Pod PodConfig DeviceType Capabilities)
    (req : Request Any Pod PodConfig DeviceType) (w : W) :
    Outcome (Reply Capabilities)
      (pluginHypervisor W Any Pod PodConfig DeviceType Capabilities × W) :=
  match req with
  | .init pod => (init rt h pod w).mapRet Reply.error
  | .createPod podConfig => (createPod rt h podConfig w).mapRet Reply.error
  | .startPod => (startPod rt h w).mapRet Reply.error
  | .waitPod timeout => (waitPod rt h timeout w).mapRet Reply.error
  | .stopPod => (stopPod rt h w).mapRet Reply.error
  | .pausePod => (pausePod rt h w).mapRet Reply.error
  | .resumePod => (resumePod rt h w).mapRet Reply.error
  | .addDevice devInfo devType => (addDevice rt h devInfo devType w).mapRet Reply.error
  | .hotplugAddDevice devInfo devType =>
    (hotplugAddDevice rt h devInfo devType w).mapRet Reply.error
  | .hotplugRemoveDevice devInfo devType =>
    (hotplugRemoveDevice rt h devInfo devType w).mapRet Reply.error
  | .getPodConsole podID => (getPodConsole h podID w).mapRet Reply.console
  | .capabilities => (capabilities h w).mapRet Reply.caps

/-- Perform a sequence of method calls, each on the state the previous one left; a panic
ends the sequence. -/
def runCalls [HasPluginPath Pod] [HasZero Capabilities]
    (rt : Runtime W Any Pod PodConfig DeviceType Capabilities) :
    List (Request Any Pod PodConfig DeviceType) →
    pluginHypervisor W Any Pod PodConfig DeviceType Capabilities → W →
    Outcome (List (Reply Capabilities))
      (pluginHypervisor W Any Pod PodConfig DeviceType Capabilities × W)
  | [], h, w => .ret [] (h, w)
  | req :: rest, h, w =>
    match call rt h req w with
    | .panic s => .panic s
    | .ret r s => (runCalls rt rest s.1 s.2).mapRet (fun rs => r :: rs)

/-- The handle through which a request looks its symbol up: for `init` the handle just
returned by the loader (when the loader reports no error), for every other method the
`handler` field. -/
def lookupHandle [HasPluginPath Pod]
    (rt : Runtime W Any Pod PodConfig DeviceType Capabilities)
    (h : pluginHypervisor W Any Pod PodConfig DeviceType Capabilities) :
    Request Any Pod PodConfig DeviceType →
    Option (Plugin W Any Pod PodConfig DeviceType Capabilities)
  | .init pod =>
    match (rt.Open (HasPluginPath.PluginPath pod)).2 with
    | none => (rt.Open (HasPluginPath.PluginPath pod)).1
    | some _ => none
  | _ => h.handler

end Requests

/-! ## The backend driven directly

What the specification calls forwarding verbatim, written from its words: the callable is
applied to the Backend Instance first and then to the caller's arguments, unchanged and in
order. The theorems compare the methods above with it. -/

section Forwarding

variable {W Any Pod PodConfig DeviceType Capabilities : Type}

/-- The callable of `sym` applied once, in the world `w`, to the Backend Instance `inst`
followed by the arguments of the request: its raw result and the world it leaves. `none`
when the symbol has not the type of that operation, and for `init`, whose callable takes
the pod alone. -/
def forward : Request Any Pod PodConfig DeviceType →
    Symbol W Any Pod PodConfig DeviceType Capabilities → Any → W →
    Option (Reply Capabilities × W)
  | .createPod podConfig, .podConfigFn f, inst, w =>
    some (.error (f inst podConfig w).1, (f inst podConfig w).2)
  | .startPod, .podFn f, inst, w => some (.error (f inst w).1, (f inst w).2)
  | .waitPod timeout, .waitFn f, inst, w =>
    some (.error (f inst timeout w).1, (f inst timeout w).2)
  | .stopPod, .podFn f, inst, w => some (.error (f inst w).1, (f inst w).2)
  | .pausePod, .podFn f, inst, w => some (.error (f inst w).1, (f inst w).2)
  | .resumePod, .podFn f, inst, w => some (.error (f inst w).1, (f inst w).2)
  | .addDevice devInfo devType, .deviceFn f, inst, w =>
    some (.error (f inst devInfo devType w).1, (f inst devInfo devType w).2)
  | .hotplugAddDevice devInfo devType, .deviceFn f, inst, w =>
    some (.error (f inst devInfo devType w).1, (f inst devInfo devType w).2)
  | .hotplugRemoveDevice devInfo devType, .deviceFn f, inst, w =>
    some (.error (f inst devInfo devType w).1, (f inst devInfo devType w).2)
  | .getPodConsole podID, .consoleFn f, inst, w =>
    some (.console (f inst podID w).1, (f inst podID w).2)
  | .capabilities, .capabilitiesFn f, inst, w => some (.caps (f inst w).1, (f inst w).2)
  | _, _, _, _ => none

/-- What the adapter makes of the callable's raw result: a non-nil error is wrapped with
the name of the operation, everything else is handed on as it is. -/
def wrapReply (name : String) : Reply Capabilities → Reply Capabilities
  | .error e => .error (wrapResult name e)
  | r => r

/-- The callables of the module `p` applied one after the other to the instance `inst`,
one per request, each in the world the previous one left: the raw results and the last
world. `none` when a name is not exported with the type of its operation. -/
def backendRun (p : Plugin W Any Pod PodConfig DeviceType Capabilities) (inst : Any) :
    List (Request Any Pod PodConfig DeviceType) → W →
    Option (List (Reply Capabilities) × W)
  | [], w => some ([], w)
  | req :: rest, w =>
    match p.Lookup req.funcName with
    | .error _ => none
    | .ok sym =>
      match forward req sym inst w with
      | none => none
      | some (r, w1) =>
        match backendRun p inst rest w1 with
        | none => none
        | some (rs, w2) => some (r :: rs, w2)

/-- A string in which `%q` escapes nothing: every character is printable and is neither
the double quote nor the backslash. -/
def needsNoEscape (uni : Char → Bool) (s : String) : Bool :=
  s.data.all (fun r => IsPrint uni r && r.toNat != 34 && r.toNat != 92)

end Forwarding

/-! ## A concrete backend

A small module with all twelve entry points, whose callables log every invocation and
refuse to pause a guest that is paused already; and three defective modules. -/

/-- A pod, reduced to what `init` reads of it. -/
structure DemoPod where
  PluginPath : String

instance : HasPluginPath DemoPod := ⟨DemoPod.PluginPath⟩

/-- Capabilities as a word of flags; the zero value has no flag set. -/
instance : HasZero Nat := ⟨0⟩

/-- The world of the demo backend: the invocations so far (name of the callable and its
arguments, the Backend Instance first) and whether the guest is paused. -/
structure DemoWorld where
  log : List (String × List Int)
  paused : Bool

/-- Append one invocation to the log. -/
def DemoWorld.record (w : DemoWorld) (name : String) (args : List Int) : DemoWorld :=
  { w with log := w.log ++ [(name, args)] }

/-- The world before anything has run. -/
def demoWorld0 : DemoWorld := { log := [], paused := false }

abbrev DemoSymbol := Symbol DemoWorld Nat DemoPod Nat Nat Nat
abbrev DemoPlugin := Plugin DemoWorld Nat DemoPod Nat Nat Nat
abbrev DemoAdapter := pluginHypervisor DemoWorld Nat DemoPod Nat Nat Nat
abbrev DemoRequest := Request Nat DemoPod Nat Nat

/-- The text of the error of `plugin.Lookup` for a name that is not exported. -/
def notFound (path name : String) : String :=
  "plugin: symbol " ++ name ++ " not found in plugin " ++ path

/-- The callable `PausePod` of the demo backend: an error when the guest is paused already. -/
def demoPause (inst : Nat) (w : DemoWorld) : Option String × DemoWorld :=
  if w.paused then (some "already paused", w.record "PausePod" [inst])
  else (none, { w.record "PausePod" [inst] with paused := true })

/-- The callable `ResumePod` of the demo backend. -/
def demoResume (inst : Nat) (w : DemoWorld) : Option String × DemoWorld :=
  (none, { w.record "ResumePod" [inst] with paused := false })

/-- A conforming module: all twelve names, each with the expected type. `Init` returns the
instance 7. -/
def demoPlugin : DemoPlugin where
  pluginpath := "/lib/demo.so"
  Lookup := fun name =>
    if name = "Init" then .ok (.initFn (fun _ w => ((7, none), w.record "Init" [])))
    else if name = "CreatePod" then
      .ok (.podConfigFn (fun i c w => (none, w.record "CreatePod" [i, c])))
    else if name = "StartPod" then .ok (.podFn (fun i w => (none, w.record "StartPod" [i])))
    else if name = "WaitPod" then
      .ok (.waitFn (fun i t w => (none, w.record "WaitPod" [i, t])))
    else if name = "StopPod" then .ok (.podFn (fun i w => (none, w.record "StopPod" [i])))
    else if name = "PausePod" then .ok (.podFn demoPause)
    else if name = "ResumePod" then .ok (.podFn demoResume)
    else if name = "AddDevice" then
      .ok (.deviceFn (fun i d k w => (none, w.record "AddDevice" [i, d, k])))
    else if name = "HotplugAddDevice" then
      .ok (.deviceFn (fun i d k w => (none, w.record "HotplugAddDevice" [i, d, k])))
    else if name = "HotplugRemoveDevice" then
      .ok (.deviceFn (fun i d k w =>
        (some "device busy", w.record "HotplugRemoveDevice" [i, d, k])))
    else if name = "GetPodConsole" then
      .ok (.consoleFn (fun i podID w => ("/run/" ++ podID, w.record "GetPodConsole" [i])))
    else if name = "Capabilities" then
      .ok (.capabilitiesFn (fun i w => (5, w.record "Capabilities" [i])))
    else .error (notFound "/lib/demo.so" name)

/-- A module that exports nothing. -/
def emptyPlugin : DemoPlugin where
  pluginpath := "/lib/empty.so"
  Lookup := fun name => .error (notFound "/lib/empty.so" name)

/-- A module whose `CreatePod` lacks the configuration argument (it has the type
`func(interface{}) error`), whose `GetPodConsole` is a variable and not a function, and
that exports nothing else. Its `CreatePod` would log its invocation. -/
def mistypedPlugin : DemoPlugin where
  pluginpath := "/lib/mistyped.so"
  Lookup := fun name =>
    if name = "CreatePod" then .ok (.podFn (fun i w => (none, w.record "CreatePod" [i])))
    else if name = "GetPodConsole" then .ok (.other 0)
    else .error (notFound "/lib/mistyped.so" name)

/-- A module whose `Init` fails, returning the value 9 next to its error. -/
def failingInitPlugin : DemoPlugin where
  pluginpath := "/lib/nokvm.so"
  Lookup := fun name =>
    if name = "Init" then
      .ok (.initFn (fun _ w => ((9, some "no kvm"), w.record "Init" [])))
    else .error (notFound "/lib/nokvm.so" name)

/-- A loader that knows the four modules above and fails for every other path, returning
a nil handle with its error as `plugin.Open` does. -/
def demoRuntime : Runtime DemoWorld Nat DemoPod Nat Nat Nat where
  Open := fun path =>
    if path = "/lib/demo.so" then (some demoPlugin, none)
    else if path = "/lib/empty.so" then (some emptyPlugin, none)
    else if path = "/lib/mistyped.so" then (some mistypedPlugin, none)
    else if path = "/lib/nokvm.so" then (some failingInitPlugin, none)
    else (none, some ("plugin.Open(\"" ++ path ++ "\"): realpath failed"))
  uni := fun _ => false

/-- An adapter on which `init` has run with the conforming module. -/
def demoAdapter : DemoAdapter := { handler := some demoPlugin, hypervisor := 7 }

/-- An adapter that has not been initialised. -/
def freshAdapter : DemoAdapter := { handler := none, hypervisor := 0 }

/-! ## Lemmas on formatting -/

section Theorems

variable {W Any Pod PodConfig DeviceType Capabilities : Type}

/-- The `%q` rendering of each of the twelve operation names is the name between double
quotes: none of them holds a character that `%q` escapes. -/
theorem fmtQ_funcName (uni : Char → Bool) (req : Request Any Pod PodConfig DeviceType) :
    fmtQ uni req.funcName = "\"" ++ req.funcName ++ "\"" := by
  cases req <;> rfl

/-- The text of a lookup error for an operation name, written out. -/
theorem lookupError_funcName (uni : Char → Bool) (req : Request Any Pod PodConfig DeviceType)
    (cause : String) :
    lookupError uni req.funcName cause
      = "Failed to lookup function \"" ++ req.funcName ++ "\": " ++ cause := by
  unfold lookupError
  rw [fmtQ_funcName]
  simp only [String.append_assoc]
  rfl

/-- Escaping changes nothing in a list of characters none of which needs an escape. -/
theorem flatMap_appendEscapedRune (uni : Char → Bool) (l : List Char)
    (hl : l.all (fun r => IsPrint uni r && r.toNat != 34 && r.toNat != 92) = true) :
    l.flatMap (appendEscapedRune uni) = l := by
  induction l with
  | nil => rfl
  | cons r rest ih =>
    simp only [List.all_cons, Bool.and_eq_true, bne_iff_ne, ne_eq] at hl
    obtain ⟨⟨⟨hprint, hq⟩, hb⟩, hrest⟩ := hl
    have hr : appendEscapedRune uni r = [r] := by
      simp [appendEscapedRune, hprint, hq, hb]
    rw [List.flatMap_cons, hr, ih hrest]
    rfl

/-- The `%q` rendering of a string that needs no escape is the string between double
quotes. -/
theorem fmtQ_of_needsNoEscape (uni : Char → Bool) (s : String)
    (hs : needsNoEscape uni s = true) : fmtQ uni s = "\"" ++ s ++ "\"" := by
  unfold fmtQ
  rw [flatMap_appendEscapedRune uni s.data hs]
  apply String.ext
  simp [String.data_append]

/-- A conditional list is at least as long as the shorter of its branches. -/
theorem le_length_ite (c : Prop) [Decidable c] (a b : List Char) (n : Nat)
    (ha : n ≤ a.length) (hb : n ≤ b.length) : n ≤ (if c then a else b).length := by
  split <;> assumption

/-- Every rune is rendered by at least one character. -/
theorem appendEscapedRune_length_pos (uni : Char → Bool) (r : Char) :
    1 ≤ (appendEscapedRune uni r).length := by
  unfold appendEscapedRune
  repeat' apply le_length_ite
  all_goals
    simp only [List.length_cons]
    omega

/-- A rune that is not printable, or is the double quote or the backslash, is rendered by
at least two characters. -/
theorem appendEscapedRune_length_escape (uni : Char → Bool) (r : Char)
    (hr : (IsPrint uni r && r.toNat != 34 && r.toNat != 92) = false) :
    2 ≤ (appendEscapedRune uni r).length := by
  unfold appendEscapedRune
  by_cases hq : r.toNat = 34 ∨ r.toNat = 92
  · rw [if_pos hq]
    exact Nat.le_refl 2
  · rw [if_neg hq]
    by_cases hprint : IsPrint uni r = true
    · rw [not_or] at hq
      rw [hprint, Bool.true_and, Bool.and_eq_false_iff] at hr
      rcases hr with hr | hr
      · exact absurd (by simpa using hr) hq.1
      · exact absurd (by simpa using hr) hq.2
    · rw [if_neg hprint]
      repeat' apply le_length_ite
      all_goals
        simp only [List.length_cons]
        omega

/-- Escaping never shortens a list of characters. -/
theorem flatMap_appendEscapedRune_length_le (uni : Char → Bool) (l : List Char) :
    l.length ≤ (l.flatMap (appendEscapedRune uni)).length := by
  induction l with
  | nil => simp
  | cons r rest ih =>
    have h1 := appendEscapedRune_length_pos uni r
    simp only [List.flatMap_cons, List.length_append, List.length_cons]
    omega

/-- Escaping lengthens a list of characters one of which needs an escape. -/
theorem flatMap_appendEscapedRune_length_lt (uni : Char → Bool) (l : List Char)
    (hl : l.all (fun r => IsPrint uni r && r.toNat != 34 && r.toNat != 92) = false) :
    l.length < (l.flatMap (appendEscapedRune uni)).length := by
  induction l with
  | nil => simp at hl
  | cons r rest ih =>
    simp only [List.flatMap_cons, List.length_append, List.length_cons]
    rw [List.all_cons] at hl
    cases hr : (IsPrint uni r && r.toNat != 34 && r.toNat != 92)
    · have h2 := appendEscapedRune_length_escape uni r hr
      have h3 := flatMap_appendEscapedRune_length_le uni rest
      omega
    · rw [hr, Bool.true_and] at hl
      have h1 := appendEscapedRune_length_pos uni r
      have h3 := ih hl
      omega

/-- The `%q` rendering of a string in which something is escaped is longer than the
string between double quotes. -/
theorem fmtQ_length_of_escape (uni : Char → Bool) (s : String)
    (hs : needsNoEscape uni s = false) : s.length + 2 < (fmtQ uni s).length := by
  have h := flatMap_appendEscapedRune_length_lt uni s.data hs
  simp only [fmtQ, String.length, List.length_cons, List.length_append, List.length_nil]
  omega

/-- The method `createPod` on a handle that exports its name with the expected type. -/
theorem createPod_resolved (rt : Runtime W Any Pod PodConfig DeviceType Capabilities)
    (h : pluginHypervisor W Any Pod PodConfig DeviceType Capabilities) (podConfig : PodConfig) (w : W)
    (p : Plugin W Any Pod PodConfig DeviceType Capabilities)
    (f : Any → PodConfig → W → Option String × W)
    (hp : h.handler = some p) (hl : p.Lookup createPodFuncName = .ok (.podConfigFn f)) :
    createPod rt h podConfig w
      = .ret (wrapResult createPodFuncName (f h.hypervisor podConfig w).1)
          (h, (f h.hypervisor podConfig w).2) := by
  simp only [createPod, hp, hl, wrapResult]
  split <;> simp_all

/-- The method `startPod` on a handle that exports its name with the expected type. -/
theorem startPod_resolved (rt : Runtime W Any Pod PodConfig DeviceType Capabilities)
    (h : pluginHypervisor W Any Pod PodConfig DeviceType Capabilities) (w : W)
    (p : Plugin W Any Pod PodConfig DeviceType Capabilities)
    (f : Any → W → Option String × W)
    (hp : h.handler = some p) (hl : p.Lookup startPodFuncName = .ok (.podFn f)) :
    startPod rt h w
      = .ret (wrapResult startPodFuncName (f h.hypervisor w).1)
          (h, (f h.hypervisor w).2) := by
  simp only [startPod, hp, hl, wrapResult]
  split <;> simp_all

/-- The method `waitPod` on a handle that exports its name with the expected type. -/
theorem waitPod_resolved (rt : Runtime W Any Pod PodConfig DeviceType Capabilities)
    (h : pluginHypervisor W Any Pod PodConfig DeviceType Capabilities) (timeout : Int) (w : W)
    (p : Plugin W Any Pod PodConfig DeviceType Capabilities)
    (f : Any → Int → W → Option String × W)
    (hp : h.handler = some p) (hl : p.Lookup waitPodFuncName = .ok (.waitFn f)) :
    waitPod rt h timeout w
      = .ret (wrapResult waitPodFuncName (f h.hypervisor timeout w).1)
          (h, (f h.hypervisor timeout w).2) := by
  simp only [waitPod, hp, hl, wrapResult]
  split <;> simp_all

/-- The method `stopPod` on a handle that exports its name with the expected type. -/
theorem stopPod_resolved (rt : Runtime W Any Pod PodConfig DeviceType Capabilities)
    (h : pluginHypervisor W Any Pod PodConfig DeviceType Capabilities) (w : W)
    (p : Plugin W Any Pod PodConfig DeviceType Capabilities)
    (f : Any → W → Option String × W)
    (hp : h.handler = some p) (hl : p.Lookup stopPodFuncName = .ok (.podFn f)) :
    stopPod rt h w
      = .ret (wrapResult stopPodFuncName (f h.hypervisor w).1)
          (h, (f h.hypervisor w).2) := by
  simp only [stopPod, hp, hl, wrapResult]
  split <;> simp_all

/-- The method `pausePod` on a handle that exports its name with the expected type. -/
theorem pausePod_resolved (rt : Runtime W Any Pod PodConfig DeviceType Capabilities)
    (h : pluginHypervisor W Any Pod PodConfig DeviceType Capabilities) (w : W)
    (p : Plugin W Any Pod PodConfig DeviceType Capabilities)
    (f : Any → W → Option String × W)
    (hp : h.handler = some p) (hl : p.Lookup pausePodFuncName = .ok (.podFn f)) :
    pausePod rt h w
      = .ret (wrapResult pausePodFuncName (f h.hypervisor w).1)
          (h, (f h.hypervisor w).2) := by
  simp only [pausePod, hp, hl, wrapResult]
  split <;> simp_all

/-- The method `resumePod` on a handle that exports its name with the expected type. -/
theorem resumePod_resolved (rt : Runtime W Any Pod PodConfig DeviceType Capabilities)
    (h : pluginHypervisor W Any Pod PodConfig DeviceType Capabilities) (w : W)
    (p : Plugin W Any Pod PodConfig DeviceType Capabilities)
    (f : Any → W → Option String × W)
    (hp : h.handler = some p) (hl : p.Lookup resumePodFuncName = .ok (.podFn f)) :
    resumePod rt h w
      = .ret (wrapResult resumePodFuncName (f h.hypervisor w).1)
          (h, (f h.hypervisor w).2) := by
  simp only [resumePod, hp, hl, wrapResult]
  split <;> simp_all

/-- The method `addDevice` on a handle that exports its name with the expected type. -/
theorem addDevice_resolved (rt : Runtime W Any Pod PodConfig DeviceType Capabilities)
    (h : pluginHypervisor W Any Pod PodConfig DeviceType Capabilities) (devInfo : Any) (devType : DeviceType) (w : W)
    (p : Plugin W Any Pod PodConfig DeviceType Capabilities)
    (f : Any → Any → DeviceType → W → Option String × W)
    (hp : h.handler = some p) (hl : p.Lookup addDeviceFuncName = .ok (.deviceFn f)) :
    addDevice rt h devInfo devType w
      = .ret (wrapResult addDeviceFuncName (f h.hypervisor devInfo devType w).1)
          (h, (f h.hypervisor devInfo devType w).2) := by
  simp only [addDevice, hp, hl, wrapResult]
  split <;> simp_all

/-- The method `hotplugAddDevice` on a handle that exports its name with the expected type. -/
theorem hotplugAddDevice_resolved (rt : Runtime W Any Pod PodConfig DeviceType Capabilities)
    (h : pluginHypervisor W Any Pod PodConfig DeviceType Capabilities) (devInfo : Any) (devType : DeviceType) (w : W)
    (p : Plugin W Any Pod PodConfig DeviceType Capabilities)
    (f : Any → Any → DeviceType → W → Option String × W)
    (hp : h.handler = some p) (hl : p.Lookup hotplugAddDeviceFuncName = .ok (.deviceFn f)) :
    hotplugAddDevice rt h devInfo devType w
      = .ret (wrapResult hotplugAddDeviceFuncName (f h.hypervisor devInfo devType w).1)
          (h, (f h.hypervisor devInfo devType w).2) := by
  simp only [hotplugAddDevice, hp, hl, wrapResult]
  split <;> simp_all

/-- The method `hotplugRemoveDevice` on a handle that exports its name with the expected type. -/
theorem hotplugRemoveDevice_resolved (rt : Runtime W Any Pod PodConfig DeviceType Capabilities)
    (h : pluginHypervisor W Any Pod PodConfig DeviceType Capabilities) (devInfo : Any) (devType : DeviceType) (w : W)
    (p : Plugin W Any Pod PodConfig DeviceType Capabilities)
    (f : Any → Any → DeviceType → W → Option String × W)
    (hp : h.handler = some p) (hl : p.Lookup hotplugRemoveDeviceFuncName = .ok (.deviceFn f)) :
    hotplugRemoveDevice rt h devInfo devType w
      = .ret (wrapResult hotplugRemoveDeviceFuncName (f h.hypervisor devInfo devType w).1)
          (h, (f h.hypervisor devInfo devType w).2) := by
  simp only [hotplugRemoveDevice, hp, hl, wrapResult]
  split <;> simp_all

/-- A method other than `init`, on a handle whose symbol has the expected type, does what
`forward` does: one application of the callable to the stored instance and the caller's
arguments, the adapter unchanged, the result wrapped. -/
theorem call_eq_forward [HasPluginPath Pod] [HasZero Capabilities]
    (rt : Runtime W Any Pod PodConfig DeviceType Capabilities)
    (h : pluginHypervisor W Any Pod PodConfig DeviceType Capabilities)
    (req : Request Any Pod PodConfig DeviceType) (w : W)
    (p : Plugin W Any Pod PodConfig DeviceType Capabilities)
    (sym : Symbol W Any Pod PodConfig DeviceType Capabilities)
    (hp : h.handler = some p) (hl : p.Lookup req.funcName = .ok sym)
    (hs : req.expects sym = true) (hni : req.isInit = false) :
    ∃ r w1, forward req sym h.hypervisor w = some (r, w1)
      ∧ call rt h req w = .ret (wrapReply req.funcName r) (h, w1) := by
  cases req <;> cases sym <;>
    simp only [Request.expects, Request.isInit, Request.funcName, Bool.false_eq_true,
      Bool.true_eq_false] at hs hni hl <;>
    refine ⟨_, _, rfl, ?_⟩ <;> simp only [call, Request.funcName, wrapReply]
  case createPod.podConfigFn => rw [createPod_resolved rt h _ w p _ hp hl]; rfl
  case startPod.podFn => rw [startPod_resolved rt h w p _ hp hl]; rfl
  case waitPod.waitFn => rw [waitPod_resolved rt h _ w p _ hp hl]; rfl
  case stopPod.podFn => rw [stopPod_resolved rt h w p _ hp hl]; rfl
  case pausePod.podFn => rw [pausePod_resolved rt h w p _ hp hl]; rfl
  case resumePod.podFn => rw [resumePod_resolved rt h w p _ hp hl]; rfl
  case addDevice.deviceFn => rw [addDevice_resolved rt h _ _ w p _ hp hl]; rfl
  case hotplugAddDevice.deviceFn => rw [hotplugAddDevice_resolved rt h _ _ w p _ hp hl]; rfl
  case hotplugRemoveDevice.deviceFn =>
    rw [hotplugRemoveDevice_resolved rt h _ _ w p _ hp hl]; rfl
  case getPodConsole.consoleFn => simp [getPodConsole, hp, hl, Outcome.mapRet]
  case capabilities.capabilitiesFn => simp [capabilities, hp, hl, Outcome.mapRet]

/-- Wrapping keeps nil and non-nil apart. -/
theorem wrapReply_eq_nil_iff (name : String) (r : Reply Capabilities) :
    wrapReply name r = Reply.error none ↔ r = Reply.error none := by
  cases r with
  | error e => cases e <;> simp [wrapReply, wrapResult]
  | console s => simp [wrapReply]
  | caps c => simp [wrapReply]

/-- A sequence of calls none of which is `init`, on a module that exports each called
name with the expected type: the adapter returns, call by call, the wrapped results of
the backend driven directly, and is itself unchanged. -/
theorem runCalls_eq_backendRun [HasPluginPath Pod] [HasZero Capabilities]
    (rt : Runtime W Any Pod PodConfig DeviceType Capabilities)
    (h : pluginHypervisor W Any Pod PodConfig DeviceType Capabilities)
    (p : Plugin W Any Pod PodConfig DeviceType Capabilities)
    (hp : h.handler = some p)
    (reqs : List (Request Any Pod PodConfig DeviceType))
    (hreqs : ∀ req ∈ reqs, req.isInit = false
      ∧ ∃ sym, p.Lookup req.funcName = .ok sym ∧ req.expects sym = true)
    (w : W) :
    ∃ answers w2, backendRun p h.hypervisor reqs w = some (answers, w2)
      ∧ runCalls rt reqs h w
          = .ret (List.zipWith (fun req a => wrapReply req.funcName a) reqs answers) (h, w2)
      ∧ List.Forall₂ (fun reply answer => reply = Reply.error none ↔ answer = Reply.error none)
          (List.zipWith (fun req a => wrapReply req.funcName a) reqs answers) answers := by
  induction reqs generalizing w with
  | nil => exact ⟨[], w, rfl, rfl, List.Forall₂.nil⟩
  | cons req rest ih =>
    obtain ⟨hni, sym, hl, hs⟩ := hreqs req (List.mem_cons_self _ _)
    obtain ⟨r, w1, hf, hc⟩ := call_eq_forward rt h req w p sym hp hl hs hni
    obtain ⟨answers, w2, hb, hr, hall⟩ :=
      ih (fun q hq => hreqs q (List.mem_cons_of_mem _ hq)) w1
    refine ⟨r :: answers, w2, ?_, ?_, ?_⟩
    · simp [backendRun, hl, hf, hb]
    · simp [runCalls, hc, hr, Outcome.mapRet]
    · exact List.Forall₂.cons (wrapReply_eq_nil_iff _ _) hall

/-- A method other than `init` never assigns a field of the adapter, however it ends. -/
theorem call_state_adapter [HasPluginPath Pod] [HasZero Capabilities]
    (rt : Runtime W Any Pod PodConfig DeviceType Capabilities)
    (h : pluginHypervisor W Any Pod PodConfig DeviceType Capabilities)
    (req : Request Any Pod PodConfig DeviceType) (w : W) (hni : req.isInit = false) :
    (call rt h req w).state.1 = h := by
  cases req
  case init pod => simp [Request.isInit] at hni
  all_goals
    simp only [call, createPod, startPod, waitPod, stopPod, pausePod, resumePod, addDevice,
      hotplugAddDevice, hotplugRemoveDevice, getPodConsole, capabilities]
    repeat' split
    all_goals rfl

/-- The method `init` assigns to `handler` what the loader returns, however it ends. -/
theorem init_state_handler [HasPluginPath Pod]
    (rt : Runtime W Any Pod PodConfig DeviceType Capabilities)
    (h : pluginHypervisor W Any Pod PodConfig DeviceType Capabilities) (pod : Pod) (w : W) :
    (init rt h pod w).state.1.handler = (rt.Open (HasPluginPath.PluginPath pod)).1 := by
  simp only [init]
  repeat' split
  all_goals rfl

/-- C1: for each of the ten methods that return `error`, when the lookup of the method's
exported name fails with cause `cause` (for `init`: after the loader has returned the
handle without error), the method returns the non-nil error
`Failed to lookup function "<name>": <cause>`, the backend world is untouched (no backend
callable has run) and the `hypervisor` field is what it was before; for the methods other
than `init` the whole adapter is unchanged. -/
theorem lookup_failure_is_reported [HasPluginPath Pod] [HasZero Capabilities]
    (rt : Runtime W Any Pod PodConfig DeviceType Capabilities)
    (h : pluginHypervisor W Any Pod PodConfig DeviceType Capabilities)
    (req : Request Any Pod PodConfig DeviceType) (w : W)
    (p : Plugin W Any Pod PodConfig DeviceType Capabilities) (cause : String)
    (hreq : req.returnsError = true)
    (hp : lookupHandle rt h req = some p)
    (hl : p.Lookup req.funcName = .error cause) :
    call rt h req w
        = .ret (.error (some ("Failed to lookup function \"" ++ req.funcName ++ "\": " ++ cause)))
            ({ handler := some p, hypervisor := h.hypervisor }, w)
      ∧ (req.isInit = false → (call rt h req w).state = (h, w)) := by
  rw [← lookupError_funcName rt.uni req cause]
  cases h with
  | mk handler hypervisor =>
    cases req
    case init pod =>
      simp only [lookupHandle] at hp
      rcases hO : rt.Open (HasPluginPath.PluginPath pod) with ⟨a, b⟩
      rw [hO] at hp
      cases b <;> simp_all [call, Request.funcName, Request.isInit, Outcome.mapRet, init]
    all_goals
      simp_all [call, lookupHandle, Request.funcName, Request.returnsError, Request.isInit,
        Outcome.mapRet, Outcome.state, createPod, startPod, waitPod, stopPod, pausePod,
        resumePod, addDevice, hotplugAddDevice, hotplugRemoveDevice]

/-- Witness of C1: `startPod` and `init` on the module that exports nothing. -/
theorem lookup_failure_is_reported_witness :
    (lookupHandle demoRuntime { handler := some emptyPlugin, hypervisor := 3 }
        (Request.startPod : DemoRequest) = some emptyPlugin
      ∧ emptyPlugin.Lookup "StartPod"
          = .error "plugin: symbol StartPod not found in plugin /lib/empty.so")
    ∧ (call demoRuntime { handler := some emptyPlugin, hypervisor := 3 }
          (Request.startPod : DemoRequest) demoWorld0
        = .ret (.error (some ("Failed to lookup function \"" ++ "StartPod" ++ "\": "
              ++ "plugin: symbol StartPod not found in plugin /lib/empty.so")))
            ({ handler := some emptyPlugin, hypervisor := 3 }, demoWorld0)
      ∧ ((Request.startPod : DemoRequest).isInit = false →
          (call demoRuntime { handler := some emptyPlugin, hypervisor := 3 }
            (Request.startPod : DemoRequest) demoWorld0).state
            = ({ handler := some emptyPlugin, hypervisor := 3 }, demoWorld0)))
    ∧ call demoRuntime freshAdapter (.init { PluginPath := "/lib/empty.so" }) demoWorld0
        = .ret (.error (some ("Failed to lookup function \"" ++ "Init" ++ "\": "
              ++ "plugin: symbol Init not found in plugin /lib/empty.so")))
            ({ handler := some emptyPlugin, hypervisor := 0 }, demoWorld0) :=
  ⟨⟨rfl, rfl⟩,
    lookup_failure_is_reported demoRuntime { handler := some emptyPlugin, hypervisor := 3 }
      .startPod demoWorld0 emptyPlugin _ rfl rfl rfl,
    (lookup_failure_is_reported demoRuntime freshAdapter
      (.init { PluginPath := "/lib/empty.so" }) demoWorld0 emptyPlugin _ rfl rfl rfl).1⟩

/-- C2, as the code has it: when the looked-up symbol has not the type the method
asserts, the method panics at the type assertion. It returns nothing, so no error naming
the operation; the exported callable is not invoked (the backend world is untouched) and
the `hypervisor` field is unchanged. This holds for all twelve methods. -/
theorem type_mismatch_panics [HasPluginPath Pod] [HasZero Capabilities]
    (rt : Runtime W Any Pod PodConfig DeviceType Capabilities)
    (h : pluginHypervisor W Any Pod PodConfig DeviceType Capabilities)
    (req : Request Any Pod PodConfig DeviceType) (w : W)
    (p : Plugin W Any Pod PodConfig DeviceType Capabilities)
    (sym : Symbol W Any Pod PodConfig DeviceType Capabilities)
    (hp : lookupHandle rt h req = some p)
    (hl : p.Lookup req.funcName = .ok sym)
    (hs : req.expects sym = false) :
    call rt h req w = .panic ({ handler := some p, hypervisor := h.hypervisor }, w) := by
  cases h with
  | mk handler hypervisor =>
    cases req
    case init pod =>
      simp only [lookupHandle] at hp
      rcases hO : rt.Open (HasPluginPath.PluginPath pod) with ⟨a, b⟩
      rw [hO] at hp
      cases b <;> cases sym <;>
        simp_all [call, Request.funcName, Request.expects, Outcome.mapRet, init]
    all_goals
      cases sym <;>
        simp_all [call, lookupHandle, Request.funcName, Request.expects, Outcome.mapRet,
          createPod, startPod, waitPod, stopPod, pausePod, resumePod, addDevice,
          hotplugAddDevice, hotplugRemoveDevice, getPodConsole, capabilities]

/-- Witness of C2 as amended: `createPod` on the module whose `CreatePod` lacks an
argument. -/
theorem type_mismatch_panics_witness :
    call demoRuntime { handler := some mistypedPlugin, hypervisor := 7 }
        (Request.createPod 1 : DemoRequest) demoWorld0
      = .panic ({ handler := some mistypedPlugin, hypervisor := 7 }, demoWorld0) :=
  type_mismatch_panics demoRuntime { handler := some mistypedPlugin, hypervisor := 7 }
    (.createPod 1) demoWorld0 mistypedPlugin
    (.podFn (fun i w => (none, w.record "CreatePod" [(i : Int)]))) rfl rfl rfl

/-- Counterexample to C2: the module at `/lib/mistyped.so` exports `CreatePod` with the
type `func(interface{}) error` and `GetPodConsole` as a non-function. `createPod` and
`getPodConsole` panic on it: `createPod` returns no error at all. -/
theorem signature_mismatch_counterexample :
    (∃ sym, mistypedPlugin.Lookup createPodFuncName = .ok sym
        ∧ (Request.createPod 1 : DemoRequest).expects sym = false)
    ∧ createPod demoRuntime { handler := some mistypedPlugin, hypervisor := 7 } 1 demoWorld0
        = .panic ({ handler := some mistypedPlugin, hypervisor := 7 }, demoWorld0)
    ∧ (¬ ∃ e s, createPod demoRuntime { handler := some mistypedPlugin, hypervisor := 7 } 1
          demoWorld0 = .ret e s)
    ∧ getPodConsole ({ handler := some mistypedPlugin, hypervisor := 7 } : DemoAdapter)
          "pod0" demoWorld0
        = .panic ({ handler := some mistypedPlugin, hypervisor := 7 }, demoWorld0) := by
  refine ⟨⟨_, rfl, rfl⟩, rfl, ?_, rfl⟩
  rintro ⟨e, s, he⟩
  have hpanic : createPod demoRuntime { handler := some mistypedPlugin, hypervisor := 7 } 1
      demoWorld0 = .panic ({ handler := some mistypedPlugin, hypervisor := 7 }, demoWorld0) :=
    rfl
  rw [hpanic] at he
  cases he

/-- C3: when the symbol resolves with the expected type and the backend callable returns
the non-nil error `e`, each of the ten methods that return `error` returns the non-nil
error `<Name>() failed: <e>`; the world it leaves is the world after one application of
the callable (no retry). For `init` the callable is applied to the pod, for the other
methods to the Backend Instance and the caller's arguments. -/
theorem backend_error_is_wrapped [HasPluginPath Pod] [HasZero Capabilities]
    (rt : Runtime W Any Pod PodConfig DeviceType Capabilities)
    (h : pluginHypervisor W Any Pod PodConfig DeviceType Capabilities) (w : W)
    (p : Plugin W Any Pod PodConfig DeviceType Capabilities) (e : String) :
    (∀ (pod : Pod) (f : Pod → W → (Any × Option String) × W),
        lookupHandle rt h (.init pod) = some p →
        p.Lookup initFuncName = .ok (.initFn f) →
        (f pod w).1.2 = some e →
        init rt h pod w
          = .ret (some ("Init() failed: " ++ e))
              ({ handler := some p, hypervisor := (f pod w).1.1 }, (f pod w).2))
    ∧ (∀ (req : Request Any Pod PodConfig DeviceType)
        (sym : Symbol W Any Pod PodConfig DeviceType Capabilities) (w1 : W),
        req.returnsError = true →
        h.handler = some p →
        p.Lookup req.funcName = .ok sym →
        forward req sym h.hypervisor w = some (.error (some e), w1) →
        call rt h req w
          = .ret (.error (some (req.funcName ++ "() failed: " ++ e))) (h, w1)) := by
  constructor
  · intro pod f hp hl he
    simp only [lookupHandle] at hp
    rcases hO : rt.Open (HasPluginPath.PluginPath pod) with ⟨a, b⟩
    rw [hO] at hp
    cases b <;> simp_all [init, failedError, initFuncName]
  · intro req sym w1 hreq hp hl hf
    cases req <;> cases sym <;>
      simp_all [call, forward, Request.funcName, Request.returnsError, Outcome.mapRet,
        failedError, createPod, startPod, waitPod, stopPod, pausePod, resumePod, addDevice,
        hotplugAddDevice, hotplugRemoveDevice]

/-- Witness of C3: a second `pausePod` on the demo backend, which refuses it, and `init`
on the module whose `Init` fails. The log shows the single invocation. -/
theorem backend_error_is_wrapped_witness :
    call demoRuntime demoAdapter (Request.pausePod : DemoRequest)
        { log := [], paused := true }
      = .ret (.error (some "PausePod() failed: already paused"))
          (demoAdapter, { log := [("PausePod", [7])], paused := true })
    ∧ init demoRuntime freshAdapter { PluginPath := "/lib/nokvm.so" } demoWorld0
      = .ret (some "Init() failed: no kvm")
          ({ handler := some failingInitPlugin, hypervisor := 9 },
            { log := [("Init", [])], paused := false }) :=
  ⟨(backend_error_is_wrapped demoRuntime demoAdapter { log := [], paused := true }
      demoPlugin "already paused").2 .pausePod (.podFn demoPause) _ rfl rfl rfl rfl,
    (backend_error_is_wrapped demoRuntime freshAdapter demoWorld0 failingInitPlugin
      "no kvm").1 { PluginPath := "/lib/nokvm.so" } _ rfl rfl rfl⟩

/-- C4: when the lookup of `GetPodConsole` fails, `getPodConsole` returns the empty
string, and when the lookup of `Capabilities` fails, `capabilities` returns the zero value
`Capabilities{}`; neither produces an error (their result types hold none), the backend
world is untouched and the adapter is unchanged. -/
theorem diagnostic_lookup_failure_is_swallowed [HasZero Capabilities]
    (h : pluginHypervisor W Any Pod PodConfig DeviceType Capabilities) (w : W)
    (p : Plugin W Any Pod PodConfig DeviceType Capabilities)
    (hp : h.handler = some p) :
    (∀ (podID cause : String), p.Lookup getPodConsoleFuncName = .error cause →
        getPodConsole h podID w = .ret "" (h, w))
    ∧ (∀ cause : String, p.Lookup capabilitiesFuncName = .error cause →
        capabilities h w = .ret HasZero.zeroValue (h, w)) := by
  constructor
  · intro podID cause hl
    simp [getPodConsole, hp, hl]
  · intro cause hl
    simp [capabilities, hp, hl]

/-- Witness of C4: both queries on the module that exports nothing. -/
theorem diagnostic_lookup_failure_is_swallowed_witness :
    getPodConsole ({ handler := some emptyPlugin, hypervisor := 3 } : DemoAdapter) "pod0"
        demoWorld0
      = .ret "" ({ handler := some emptyPlugin, hypervisor := 3 }, demoWorld0)
    ∧ capabilities ({ handler := some emptyPlugin, hypervisor := 3 } : DemoAdapter)
        demoWorld0
      = .ret 0 ({ handler := some emptyPlugin, hypervisor := 3 }, demoWorld0) :=
  ⟨(diagnostic_lookup_failure_is_swallowed
      ({ handler := some emptyPlugin, hypervisor := 3 } : DemoAdapter) demoWorld0 emptyPlugin
      rfl).1 "pod0" _ rfl,
    (diagnostic_lookup_failure_is_swallowed
      ({ handler := some emptyPlugin, hypervisor := 3 } : DemoAdapter) demoWorld0 emptyPlugin
      rfl).2 _ rfl⟩

/-- Counterexample to C5: the pod's path is `/no"such.so`, which the loader cannot open.
The error of `init` holds the path as `%q` renders it, with the double quote escaped by a
backslash; it is not the text the claim gives, the path as it is between double quotes. -/
theorem open_failure_text_counterexample :
    demoRuntime.Open "/no\"such.so"
        = (none, some "plugin.Open(\"/no\"such.so\"): realpath failed")
    ∧ init demoRuntime demoAdapter { PluginPath := "/no\"such.so" } demoWorld0
        = .ret (some ("Failed to open plugin path \"/no\\\"such.so\": "
              ++ "plugin.Open(\"/no\"such.so\"): realpath failed"))
            ({ handler := none, hypervisor := 7 }, demoWorld0)
    ∧ (¬ ∃ s, init demoRuntime demoAdapter { PluginPath := "/no\"such.so" } demoWorld0
        = .ret (some ("Failed to open plugin path \"" ++ "/no\"such.so" ++ "\": "
              ++ "plugin.Open(\"/no\"such.so\"): realpath failed")) s) := by
  have hinit : init demoRuntime demoAdapter { PluginPath := "/no\"such.so" } demoWorld0
      = .ret (some ("Failed to open plugin path \"/no\\\"such.so\": "
            ++ "plugin.Open(\"/no\"such.so\"): realpath failed"))
          ({ handler := none, hypervisor := 7 }, demoWorld0) := rfl
  refine ⟨rfl, hinit, ?_⟩
  rintro ⟨s, hs⟩
  rw [hinit] at hs
  have htext := (Outcome.ret.inj hs).1
  revert htext
  decide

/-- C5, as the code has it: when the loader returns the error `c` for the pod's
`PluginPath`, `init` returns the non-nil error
`Failed to open plugin path <path as %q renders it>: <c>`, whatever handle the loader
returned with the error: no lookup takes place, the backend world is untouched (`Init` is
not invoked) and the `hypervisor` field is what it was before. The text holds the path as
it is between double quotes when the path holds only printable characters other than the
double quote and the backslash, and only then: every other path is escaped by `%q`, and
the text differs from the one with the path as it is. -/
theorem open_failure_is_reported [HasPluginPath Pod]
    (rt : Runtime W Any Pod PodConfig DeviceType Capabilities)
    (h : pluginHypervisor W Any Pod PodConfig DeviceType Capabilities) (pod : Pod) (w : W)
    (handle : Option (Plugin W Any Pod PodConfig DeviceType Capabilities)) (c : String)
    (hopen : rt.Open (HasPluginPath.PluginPath pod) = (handle, some c)) :
    init rt h pod w
        = .ret (some ("Failed to open plugin path "
              ++ fmtQ rt.uni (HasPluginPath.PluginPath pod) ++ ": " ++ c))
            ({ handler := handle, hypervisor := h.hypervisor }, w)
      ∧ (needsNoEscape rt.uni (HasPluginPath.PluginPath pod) = true →
          init rt h pod w
            = .ret (some ("Failed to open plugin path \""
                  ++ HasPluginPath.PluginPath pod ++ "\": " ++ c))
                ({ handler := handle, hypervisor := h.hypervisor }, w))
      ∧ (needsNoEscape rt.uni (HasPluginPath.PluginPath pod) = false →
          ∀ s, init rt h pod w
            ≠ .ret (some ("Failed to open plugin path \""
                  ++ HasPluginPath.PluginPath pod ++ "\": " ++ c)) s) := by
  have hmain : init rt h pod w
      = .ret (some ("Failed to open plugin path "
            ++ fmtQ rt.uni (HasPluginPath.PluginPath pod) ++ ": " ++ c))
          ({ handler := handle, hypervisor := h.hypervisor }, w) := by
    simp [init, hopen, openError]
  refine ⟨hmain, fun hplain => ?_, fun hesc s hs => ?_⟩
  · rw [hmain, fmtQ_of_needsNoEscape rt.uni _ hplain]
    simp only [String.append_assoc]
    rfl
  · rw [hmain] at hs
    have htext := Option.some.inj (Outcome.ret.inj hs).1
    have hlen := congrArg String.length htext
    have hlong := fmtQ_length_of_escape rt.uni _ hesc
    have h1 : "Failed to open plugin path ".length = 27 := by decide
    have h2 : "Failed to open plugin path \"".length = 28 := by decide
    have h3 : ": ".length = 2 := by decide
    have h4 : "\": ".length = 3 := by decide
    simp only [String.length_append, h1, h2, h3, h4] at hlen
    omega

/-- Witness of C5 as amended: `init` with a path the loader does not know and in which
nothing is escaped, and with a path that holds a double quote. -/
theorem open_failure_is_reported_witness :
    demoRuntime.Open "/nonexistent.so"
        = (none, some "plugin.Open(\"/nonexistent.so\"): realpath failed")
    ∧ init demoRuntime demoAdapter { PluginPath := "/nonexistent.so" } demoWorld0
        = .ret (some ("Failed to open plugin path \"" ++ "/nonexistent.so" ++ "\": "
              ++ "plugin.Open(\"/nonexistent.so\"): realpath failed"))
            ({ handler := none, hypervisor := 7 }, demoWorld0)
    ∧ init demoRuntime demoAdapter { PluginPath := "/no\"such.so" } demoWorld0
        = .ret (some ("Failed to open plugin path " ++ "\"/no\\\"such.so\"" ++ ": "
              ++ "plugin.Open(\"/no\"such.so\"): realpath failed"))
            ({ handler := none, hypervisor := 7 }, demoWorld0) :=
  ⟨rfl,
    (open_failure_is_reported demoRuntime demoAdapter { PluginPath := "/nonexistent.so" }
      demoWorld0 none _ rfl).2.1 rfl,
    (open_failure_is_reported demoRuntime demoAdapter { PluginPath := "/no\"such.so" }
      demoWorld0 none _ rfl).1⟩

/-- C6: when the loader returns the module `p` without error, `p` exports `Init` and
`Capabilities` with the expected types and the backend's `Init` returns `(inst, nil)`,
then `init` returns nil, and `capabilities` called next returns the very value the
backend's `Capabilities` callable returns when applied to `inst` in the world `Init`
left. -/
theorem init_then_capabilities [HasPluginPath Pod] [HasZero Capabilities]
    (rt : Runtime W Any Pod PodConfig DeviceType Capabilities)
    (h : pluginHypervisor W Any Pod PodConfig DeviceType Capabilities) (pod : Pod) (w w1 : W)
    (p : Plugin W Any Pod PodConfig DeviceType Capabilities)
    (initFunc : Pod → W → (Any × Option String) × W)
    (capabilitiesFunc : Any → W → Capabilities × W) (inst : Any)
    (hopen : rt.Open (HasPluginPath.PluginPath pod) = (some p, none))
    (hinit : p.Lookup initFuncName = .ok (.initFn initFunc))
    (hcaps : p.Lookup capabilitiesFuncName = .ok (.capabilitiesFn capabilitiesFunc))
    (hret : initFunc pod w = ((inst, none), w1)) :
    init rt h pod w = .ret none ({ handler := some p, hypervisor := inst }, w1)
      ∧ capabilities (init rt h pod w).state.1 (init rt h pod w).state.2
          = .ret (capabilitiesFunc inst w1).1
              ({ handler := some p, hypervisor := inst }, (capabilitiesFunc inst w1).2) := by
  have hmain : init rt h pod w = .ret none ({ handler := some p, hypervisor := inst }, w1) := by
    simp [init, hopen, hinit, hret]
  refine ⟨hmain, ?_⟩
  rw [hmain]
  simp [Outcome.state, capabilities, hcaps]

/-- Witness of C6: the conforming module, whose `Capabilities` returns 5. -/
theorem init_then_capabilities_witness :
    init demoRuntime freshAdapter { PluginPath := "/lib/demo.so" } demoWorld0
        = .ret none (demoAdapter, { log := [("Init", [])], paused := false })
    ∧ capabilities
          (init demoRuntime freshAdapter { PluginPath := "/lib/demo.so" } demoWorld0).state.1
          (init demoRuntime freshAdapter { PluginPath := "/lib/demo.so" } demoWorld0).state.2
        = .ret 5
            (demoAdapter, { log := [("Init", []), ("Capabilities", [7])], paused := false }) :=
  init_then_capabilities demoRuntime freshAdapter { PluginPath := "/lib/demo.so" } demoWorld0
    { log := [("Init", [])], paused := false } demoPlugin
    (fun _ w => ((7, none), w.record "Init" []))
    (fun i w => (5, w.record "Capabilities" [(i : Int)])) 7 rfl rfl rfl rfl

/-- C7: after a successful `init` (the loader returns the module `p`, `Init` resolves and
returns `(inst, nil)`), on a module that exports the six lifecycle names with the expected
types, every finite sequence of lifecycle calls, in any order, runs to its end, and each
call returns nil exactly when the backend callable of that call returned nil: the replies
are the backend's own results, wrapped, the backend being driven with `inst` in the same
order; the adapter is the same after the sequence as before it. -/
theorem lifecycle_calls_follow_backend [HasPluginPath Pod] [HasZero Capabilities]
    (rt : Runtime W Any Pod PodConfig DeviceType Capabilities)
    (h0 : pluginHypervisor W Any Pod PodConfig DeviceType Capabilities) (pod : Pod) (w0 w1 : W)
    (p : Plugin W Any Pod PodConfig DeviceType Capabilities)
    (initFunc : Pod → W → (Any × Option String) × W) (inst : Any)
    (reqs : List (Request Any Pod PodConfig DeviceType))
    (hopen : rt.Open (HasPluginPath.PluginPath pod) = (some p, none))
    (hinit : p.Lookup initFuncName = .ok (.initFn initFunc))
    (hret : initFunc pod w0 = ((inst, none), w1))
    (hexports : ∀ req : Request Any Pod PodConfig DeviceType, req.isLifecycle = true →
      ∃ sym, p.Lookup req.funcName = .ok sym ∧ req.expects sym = true)
    (hreqs : ∀ req ∈ reqs, req.isLifecycle = true) :
    init rt h0 pod w0 = .ret none ({ handler := some p, hypervisor := inst }, w1)
      ∧ ∃ answers w2,
          backendRun p inst reqs w1 = some (answers, w2)
          ∧ runCalls rt reqs { handler := some p, hypervisor := inst } w1
              = .ret (List.zipWith (fun req a => wrapReply req.funcName a) reqs answers)
                  ({ handler := some p, hypervisor := inst }, w2)
          ∧ List.Forall₂
              (fun reply answer => reply = Reply.error none ↔ answer = Reply.error none)
              (List.zipWith (fun req a => wrapReply req.funcName a) reqs answers)
              answers := by
  refine ⟨by simp [init, hopen, hinit, hret], ?_⟩
  refine runCalls_eq_backendRun rt { handler := some p, hypervisor := inst } p rfl reqs ?_ w1
  intro req hreq
  refine ⟨?_, hexports req (hreqs req hreq)⟩
  have hl := hreqs req hreq
  cases req <;> simp_all [Request.isLifecycle, Request.isInit]

/-- Witness of C7: on the conforming module, `init`, then the sequence `createPod`,
`startPod`, `pausePod`, `resumePod`, `stopPod`; every call returns nil. A second `pausePod`
with no `resumePod` in between returns the error of the backend, wrapped. -/
theorem lifecycle_calls_follow_backend_witness :
    (init demoRuntime freshAdapter { PluginPath := "/lib/demo.so" } demoWorld0
        = .ret none (demoAdapter, { log := [("Init", [])], paused := false })
      ∧ ∃ answers w2,
          backendRun demoPlugin 7
              ([.createPod 1, .startPod, .pausePod, .resumePod, .stopPod] : List DemoRequest)
              { log := [("Init", [])], paused := false } = some (answers, w2)
          ∧ runCalls demoRuntime
                ([.createPod 1, .startPod, .pausePod, .resumePod, .stopPod] : List DemoRequest)
                demoAdapter { log := [("Init", [])], paused := false }
              = .ret (List.zipWith (fun req a => wrapReply req.funcName a)
                    ([.createPod 1, .startPod, .pausePod, .resumePod, .stopPod] :
                      List DemoRequest) answers)
                  (demoAdapter, w2)
          ∧ List.Forall₂
              (fun reply answer => reply = Reply.error none ↔ answer = Reply.error none)
              (List.zipWith (fun req a => wrapReply req.funcName a)
                ([.createPod 1, .startPod, .pausePod, .resumePod, .stopPod] :
                  List DemoRequest) answers)
              answers)
    ∧ runCalls demoRuntime
          ([.createPod 1, .startPod, .pausePod, .resumePod, .stopPod] : List DemoRequest)
          demoAdapter { log := [("Init", [])], paused := false }
        = .ret [.error none, .error none, .error none, .error none, .error none]
            (demoAdapter,
              { log := [("Init", []), ("CreatePod", [7, 1]), ("StartPod", [7]),
                  ("PausePod", [7]), ("ResumePod", [7]), ("StopPod", [7])],
                paused := false })
    ∧ runCalls demoRuntime ([.pausePod, .pausePod] : List DemoRequest) demoAdapter demoWorld0
        = .ret [.error none, .error (some "PausePod() failed: already paused")]
            (demoAdapter,
              { log := [("PausePod", [7]), ("PausePod", [7])], paused := true }) :=
  ⟨lifecycle_calls_follow_backend demoRuntime freshAdapter { PluginPath := "/lib/demo.so" }
      demoWorld0 { log := [("Init", [])], paused := false } demoPlugin
      (fun _ w => ((7, none), w.record "Init" [])) 7
      [.createPod 1, .startPod, .pausePod, .resumePod, .stopPod] rfl rfl rfl
      (by
        intro req hreq
        cases req <;> simp [Request.isLifecycle] at hreq <;> exact ⟨_, rfl, rfl⟩)
      (by
        intro req hreq
        simp only [List.mem_cons, List.mem_singleton, List.not_mem_nil, or_false] at hreq
        rcases hreq with h | h | h | h | h <;> subst h <;> rfl),
    rfl, rfl⟩

/-- C8: a method other than `init` whose symbol resolves with the expected type applies
the backend callable exactly once, to the Backend Instance stored in the adapter followed
by the caller's arguments, unchanged and in order, and leaves the adapter as it was
(first part, for all eleven methods through `forward`; second part, written out for
`createPod`, `waitPod`, the three device methods and `getPodConsole`). Hence `addDevice`
followed by `hotplugRemoveDevice` applies `AddDevice` to `(inst, d, k)` and then
`HotplugRemoveDevice` to `(inst, d, k)` in the world `AddDevice` left, and each reply is
the wrapped result of its own callable. -/
theorem calls_are_forwarded_verbatim [HasPluginPath Pod] [HasZero Capabilities]
    (rt : Runtime W Any Pod PodConfig DeviceType Capabilities)
    (h : pluginHypervisor W Any Pod PodConfig DeviceType Capabilities) (w : W)
    (p : Plugin W Any Pod PodConfig DeviceType Capabilities)
    (hp : h.handler = some p) :
    (∀ (req : Request Any Pod PodConfig DeviceType)
        (sym : Symbol W Any Pod PodConfig DeviceType Capabilities),
        req.isInit = false → p.Lookup req.funcName = .ok sym → req.expects sym = true →
        ∃ r w1, forward req sym h.hypervisor w = some (r, w1)
          ∧ call rt h req w = .ret (wrapReply req.funcName r) (h, w1))
    ∧ (∀ (f : Any → PodConfig → W → Option String × W) (podConfig : PodConfig),
        p.Lookup "CreatePod" = .ok (.podConfigFn f) →
        createPod rt h podConfig w
          = .ret (wrapResult "CreatePod" (f h.hypervisor podConfig w).1)
              (h, (f h.hypervisor podConfig w).2))
    ∧ (∀ (f : Any → Int → W → Option String × W) (timeout : Int),
        p.Lookup "WaitPod" = .ok (.waitFn f) →
        waitPod rt h timeout w
          = .ret (wrapResult "WaitPod" (f h.hypervisor timeout w).1)
              (h, (f h.hypervisor timeout w).2))
    ∧ (∀ (f : Any → Any → DeviceType → W → Option String × W) (devInfo : Any)
        (devType : DeviceType),
        p.Lookup "AddDevice" = .ok (.deviceFn f) →
        addDevice rt h devInfo devType w
          = .ret (wrapResult "AddDevice" (f h.hypervisor devInfo devType w).1)
              (h, (f h.hypervisor devInfo devType w).2))
    ∧ (∀ (f : Any → Any → DeviceType → W → Option String × W) (devInfo : Any)
        (devType : DeviceType),
        p.Lookup "HotplugAddDevice" = .ok (.deviceFn f) →
        hotplugAddDevice rt h devInfo devType w
          = .ret (wrapResult "HotplugAddDevice" (f h.hypervisor devInfo devType w).1)
              (h, (f h.hypervisor devInfo devType w).2))
    ∧ (∀ (f : Any → Any → DeviceType → W → Option String × W) (devInfo : Any)
        (devType : DeviceType),
        p.Lookup "HotplugRemoveDevice" = .ok (.deviceFn f) →
        hotplugRemoveDevice rt h devInfo devType w
          = .ret (wrapResult "HotplugRemoveDevice" (f h.hypervisor devInfo devType w).1)
              (h, (f h.hypervisor devInfo devType w).2))
    ∧ (∀ (f : Any → String → W → String × W) (podID : String),
        p.Lookup "GetPodConsole" = .ok (.consoleFn f) →
        getPodConsole h podID w
          = .ret (f h.hypervisor podID w).1 (h, (f h.hypervisor podID w).2))
    ∧ (∀ (fAdd fRemove : Any → Any → DeviceType → W → Option String × W) (d : Any)
        (k : DeviceType),
        p.Lookup "AddDevice" = .ok (.deviceFn fAdd) →
        p.Lookup "HotplugRemoveDevice" = .ok (.deviceFn fRemove) →
        runCalls rt [.addDevice d k, .hotplugRemoveDevice d k] h w
          = .ret
              [.error (wrapResult "AddDevice" (fAdd h.hypervisor d k w).1),
                .error (wrapResult "HotplugRemoveDevice"
                  (fRemove h.hypervisor d k (fAdd h.hypervisor d k w).2).1)]
              (h, (fRemove h.hypervisor d k (fAdd h.hypervisor d k w).2).2)) := by
  refine ⟨?_, ?_, ?_, ?_, ?_, ?_, ?_, ?_⟩
  · intro req sym hni hl hs
    exact call_eq_forward rt h req w p sym hp hl hs hni
  · intro f podConfig hl
    exact createPod_resolved rt h podConfig w p f hp hl
  · intro f timeout hl
    exact waitPod_resolved rt h timeout w p f hp hl
  · intro f devInfo devType hl
    exact addDevice_resolved rt h devInfo devType w p f hp hl
  · intro f devInfo devType hl
    exact hotplugAddDevice_resolved rt h devInfo devType w p f hp hl
  · intro f devInfo devType hl
    exact hotplugRemoveDevice_resolved rt h devInfo devType w p f hp hl
  · intro f podID hl
    have hl1 : p.Lookup getPodConsoleFuncName = .ok (.consoleFn f) := hl
    simp [getPodConsole, hp, hl1]
  · intro fAdd fRemove d k hadd hrem
    have h1 := addDevice_resolved rt h d k w p fAdd hp hadd
    have h2 := hotplugRemoveDevice_resolved rt h d k (fAdd h.hypervisor d k w).2 p fRemove
      hp hrem
    simp only [runCalls, call, h1, h2, Outcome.mapRet]
    rfl

/-- Witness of C8: `addDevice 4 2` then `hotplugRemoveDevice 4 2` on the conforming module,
whose `HotplugRemoveDevice` fails: the log holds the two invocations, in order, each with
the instance 7 first and the caller's arguments after it. -/
theorem calls_are_forwarded_verbatim_witness :
    runCalls demoRuntime ([.addDevice 4 2, .hotplugRemoveDevice 4 2] : List DemoRequest)
        demoAdapter demoWorld0
      = .ret [.error none, .error (some "HotplugRemoveDevice() failed: device busy")]
          (demoAdapter,
            { log := [("AddDevice", [7, 4, 2]), ("HotplugRemoveDevice", [7, 4, 2])],
              paused := false }) :=
  (calls_are_forwarded_verbatim demoRuntime demoAdapter demoWorld0 demoPlugin
    rfl).2.2.2.2.2.2.2 _ _ 4 2 rfl rfl

/-- Counterexample to C9: the adapter holds the handle of the conforming module. A
further `init` with a path that cannot be loaded leaves the `handler` field nil, and a
further `init` with the path of another module leaves it holding that other handle. -/
theorem handler_replaced_counterexample :
    demoAdapter.handler = some demoPlugin
    ∧ (init demoRuntime demoAdapter { PluginPath := "/nonexistent.so" } demoWorld0).state.1.handler
        = none
    ∧ (init demoRuntime demoAdapter { PluginPath := "/nonexistent.so" } demoWorld0).state.1.handler
        ≠ demoAdapter.handler
    ∧ (init demoRuntime demoAdapter { PluginPath := "/lib/empty.so" } demoWorld0).state.1.handler
        = some emptyPlugin
    ∧ (init demoRuntime demoAdapter { PluginPath := "/lib/empty.so" } demoWorld0).state.1.handler
        ≠ demoAdapter.handler := by
  have h1 : (init demoRuntime demoAdapter { PluginPath := "/nonexistent.so" }
      demoWorld0).state.1.handler = none := rfl
  have h2 : (init demoRuntime demoAdapter { PluginPath := "/lib/empty.so" }
      demoWorld0).state.1.handler = some emptyPlugin := rfl
  refine ⟨rfl, h1, ?_, h2, ?_⟩
  · rw [h1]
    intro hc
    cases hc
  · rw [h2]
    intro hc
    have hpath := congrArg (Option.map Plugin.pluginpath) hc
    revert hpath
    decide

/-- C9, as the code has it: on an adapter whose `handler` field holds a loaded module,
every method other than `init` leaves the `handler` field holding that same handle,
whether it returns or panics; a further `init` assigns to the field whatever handle the
loader returns for the pod's path, so the field keeps the same handle only if the loader
returns that handle again. -/
theorem handler_changes_only_in_init [HasPluginPath Pod] [HasZero Capabilities]
    (rt : Runtime W Any Pod PodConfig DeviceType Capabilities)
    (h : pluginHypervisor W Any Pod PodConfig DeviceType Capabilities)
    (req : Request Any Pod PodConfig DeviceType) (w : W)
    (p : Plugin W Any Pod PodConfig DeviceType Capabilities)
    (hp : h.handler = some p) :
    (req.isInit = false → (call rt h req w).state.1.handler = some p)
    ∧ (∀ pod : Pod, req = .init pod →
        (call rt h req w).state.1.handler = (rt.Open (HasPluginPath.PluginPath pod)).1
        ∧ ((rt.Open (HasPluginPath.PluginPath pod)).1 = some p →
            (call rt h req w).state.1.handler = some p)) := by
  constructor
  · intro hni
    rw [call_state_adapter rt h req w hni, hp]
  · intro pod hreq
    subst hreq
    have hstate : (call rt h (.init pod) w).state = (init rt h pod w).state := by
      simp only [call]
      cases init rt h pod w <;> rfl
    rw [hstate, init_state_handler]
    exact ⟨rfl, fun hsame => hsame⟩

/-- Witness of C9 as amended: `stopPod` on the initialised demo adapter, and a further
`init` with the same path. -/
theorem handler_changes_only_in_init_witness :
    (call demoRuntime demoAdapter (Request.stopPod : DemoRequest) demoWorld0).state.1.handler
        = some demoPlugin
    ∧ (call demoRuntime demoAdapter (.init { PluginPath := "/lib/demo.so" })
          demoWorld0).state.1.handler = some demoPlugin :=
  ⟨(handler_changes_only_in_init demoRuntime demoAdapter .stopPod demoWorld0 demoPlugin
      rfl).1 rfl,
    ((handler_changes_only_in_init demoRuntime demoAdapter
      (.init { PluginPath := "/lib/demo.so" }) demoWorld0 demoPlugin rfl).2
        { PluginPath := "/lib/demo.so" } rfl).2 rfl⟩

/-- C10: `init` is not atomic. When the loader returns the module `p` without error and
`Init` resolves with the expected type but returns `(v, e)` with `e` non-nil, `init`
returns the error `Init() failed: <e>` and leaves `handler` holding `p` and `hypervisor`
holding `v`, whatever `hypervisor` held before. When the lookup of `Init` fails, `init`
leaves `handler` holding `p` and `hypervisor` as it was. -/
theorem init_is_not_atomic [HasPluginPath Pod]
    (rt : Runtime W Any Pod PodConfig DeviceType Capabilities)
    (h : pluginHypervisor W Any Pod PodConfig DeviceType Capabilities) (pod : Pod) (w : W)
    (p : Plugin W Any Pod PodConfig DeviceType Capabilities)
    (hopen : rt.Open (HasPluginPath.PluginPath pod) = (some p, none)) :
    (∀ (f : Pod → W → (Any × Option String) × W) (v : Any) (e : String) (w1 : W),
        p.Lookup "Init" = .ok (.initFn f) → f pod w = ((v, some e), w1) →
        init rt h pod w
          = .ret (some ("Init() failed: " ++ e)) ({ handler := some p, hypervisor := v }, w1))
    ∧ (∀ cause : String, p.Lookup "Init" = .error cause →
        init rt h pod w
          = .ret (some ("Failed to lookup function \"Init\": " ++ cause))
              ({ handler := some p, hypervisor := h.hypervisor }, w)) := by
  constructor
  · intro f v e w1 hl hret
    have hl1 : p.Lookup initFuncName = .ok (.initFn f) := hl
    simp [init, hopen, hl1, hret, failedError]
    rfl
  · intro cause hl
    have hl1 : p.Lookup initFuncName = .error cause := hl
    have htext : lookupError rt.uni initFuncName cause
        = "Failed to lookup function \"Init\": " ++ cause :=
      lookupError_funcName rt.uni (Request.init pod : Request Any Pod PodConfig DeviceType) cause
    simp [init, hopen, hl1, htext]

/-- Witness of C10: `init` of the initialised demo adapter (instance 7) with the module
whose `Init` returns 9 with an error, and with the module that exports nothing. -/
theorem init_is_not_atomic_witness :
    init demoRuntime demoAdapter { PluginPath := "/lib/nokvm.so" } demoWorld0
        = .ret (some "Init() failed: no kvm")
            ({ handler := some failingInitPlugin, hypervisor := 9 },
              { log := [("Init", [])], paused := false })
    ∧ init demoRuntime demoAdapter { PluginPath := "/lib/empty.so" } demoWorld0
        = .ret (some ("Failed to lookup function \"Init\": "
              ++ "plugin: symbol Init not found in plugin /lib/empty.so"))
            ({ handler := some emptyPlugin, hypervisor := 7 }, demoWorld0) :=
  ⟨(init_is_not_atomic demoRuntime demoAdapter { PluginPath := "/lib/nokvm.so" } demoWorld0
      failingInitPlugin rfl).1 _ 9 "no kvm" _ rfl rfl,
    (init_is_not_atomic demoRuntime demoAdapter { PluginPath := "/lib/empty.so" } demoWorld0
      emptyPlugin rfl).2 _ rfl⟩

end Theorems

end Virtcontainers
